import Mathlib

/-!
Shallow embedding of the bochscpu execution backend of the `wtf`
snapshot fuzzer (`src/wtf/bochscpu_backend.h`).

The repository ships the backend's class declaration together with a few
inline bodies: `BochscpuRunStats_t::Print`, `BochscpuRunStats_t::Reset`,
the identity hash functors `IdentityGpaHash` / `IdentityGvaHash`, and the
in-class member initializers of `BochscpuBackend_t`.  Those are embedded
directly from the source.  Method bodies that live in the corresponding
`.cc` translation unit (not part of the repository snapshot) are modelled
from the specification; each such definition carries a doc comment
starting with `Modelled from the spec:`.

Machine integers (`uint64_t`) are embedded as `Nat`, with an explicit
`% 2 ^ 64` where overflow can matter.  Pointers are embedded as `Option`
values (`none` = `nullptr`).
-/

/-- Modelled from the spec: the fixed page-size unit (`Page::Size` from
`globals.h`, which is not part of the repository snapshot); the spec fixes
pages at 4096 bytes. -/
def Page.Size : Nat := 4096

/-- Modelled from the spec: page alignment (`Page::Align`): all dirtying and
on-demand paging operate at page granularity, so an address is aligned down
to its containing 4096-byte page boundary. -/
def Page.Align (addr : Nat) : Nat := addr / Page.Size * Page.Size

/-- Guest physical address (`Gpa_t` from `globals.h`): a typed wrapper around
a raw 64-bit value; `U64` returns the raw value. -/
structure Gpa_t where
  raw : Nat
deriving DecidableEq, Repr

/-- The raw 64-bit value of a `Gpa_t` (`Gpa_t::U64`). -/
def Gpa_t.U64 (g : Gpa_t) : Nat := g.raw % 2 ^ 64

/-- Guest virtual address (`Gva_t` from `globals.h`): a typed wrapper around
a raw 64-bit value; `U64` returns the raw value. -/
structure Gva_t where
  raw : Nat
deriving DecidableEq, Repr

/-- The raw 64-bit value of a `Gva_t` (`Gva_t::U64`). -/
def Gva_t.U64 (g : Gva_t) : Nat := g.raw % 2 ^ 64

/-- Per-run statistics (`BochscpuRunStats_t`, bochscpu_backend.h:16-21):
four `uint64_t` counters, all zero-initialized. -/
structure BochscpuRunStats_t where
  NumberInstructionsExecuted : Nat := 0
  NumberMemoryAccesses : Nat := 0
  AggregatedCodeCoverage : Nat := 0
  DirtyGpas : Nat := 0
deriving DecidableEq, Repr

/-- `BochscpuRunStats_t::Reset` (bochscpu_backend.h:36-39): sets
`NumberInstructionsExecuted` and `NumberMemoryAccesses` to zero.  The other
two fields are not mentioned by the body. -/
def BochscpuRunStats_t.Reset (s : BochscpuRunStats_t) : BochscpuRunStats_t :=
  { s with NumberInstructionsExecuted := 0, NumberMemoryAccesses := 0 }

/-- The dirty-memory byte count printed by `BochscpuRunStats_t::Print`
(bochscpu_backend.h:27): `DirtyGpas * Page::Size` in `uint64_t` arithmetic. -/
def BochscpuRunStats_t.DirtyMemoryBytes (s : BochscpuRunStats_t) : Nat :=
  s.DirtyGpas * Page.Size % 2 ^ 64

/-- The dirty-memory megabyte count printed by `BochscpuRunStats_t::Print`
(bochscpu_backend.h:28): `DirtyGpas / Page::Size` (integer division of the
page count by the page size). -/
def BochscpuRunStats_t.DirtyMemoryMb (s : BochscpuRunStats_t) : Nat :=
  s.DirtyGpas / Page.Size

/-- The memory-access megabyte count printed by `BochscpuRunStats_t::Print`
(bochscpu_backend.h:31): `NumberMemoryAccesses / _1MB`. -/
def BochscpuRunStats_t.MemoryAccessMb (s : BochscpuRunStats_t) : Nat :=
  s.NumberMemoryAccesses / 2 ^ 20

/-- Testcase outcome (`TestcaseResult_t` from `backend.h`, not part of the
repository snapshot).  Modelled from the spec: a tagged variant
Ok | Crash(reason) | Timeout, set once per run. -/
inductive TestcaseResult_t where
  | Ok : TestcaseResult_t
  | Crash : String → TestcaseResult_t
  | Timeout : TestcaseResult_t
deriving DecidableEq, Repr

/-- Trace kind (`TraceType_t` from `globals.h`, not part of the repository
snapshot).  `NoTrace` appears in the source member initializer
(bochscpu_backend.h:122); the other alternatives are modelled from the
spec's Options field "trace type (None | Instructions | Full)". -/
inductive TraceType_t where
  | NoTrace : TraceType_t
  | Instructions : TraceType_t
  | Full : TraceType_t
deriving DecidableEq, Repr

/-- `IdentityGpaHash` (bochscpu_backend.h:48-50): the hash of a `Gpa_t` key
is `Key.U64()` (converted to the 64-bit `size_t`, which is the identity). -/
def IdentityGpaHash (Key : Gpa_t) : Nat := Key.U64

/-- `IdentityGvaHash` (bochscpu_backend.h:52-54): the hash of a `Gva_t` key
is `Key.U64()` (converted to the 64-bit `size_t`, which is the identity). -/
def IdentityGvaHash (Key : Gva_t) : Nat := Key.U64

/-- Modelled from the spec: the default hasher `std::hash<Gva_t>` (declared
in `globals.h`, not part of the repository snapshot) used by the containers
that do not name an explicit hash functor; the spec states addresses are
"hashed by identity (raw value) for performance in lookup tables". -/
def defaultGvaHash (Key : Gva_t) : Nat := Key.U64

/-- Backend state (`BochscpuBackend_t`, bochscpu_backend.h:42-276).  The
fields embed the data members of the class: the kernel-dump snapshot memory
(page-aligned physical address to page contents), the copy-on-write overlay
of mutable page copies backing dirtied pages (the spec's two-tier lookup),
the coverage sets, the dirty-page set, the breakpoint table, and the scalar
configuration members.  Sets and maps are embedded as lists; pointers as
`Option`; page contents as functions from byte offset to byte value. -/
structure BochscpuBackend_t where
  snapshot : Nat → Option (Nat → Nat)
  physmemOverlay : Nat → Option (Nat → Nat)
  AggregatedCodeCoverage_ : List Nat
  LastNewCoverage_ : List Nat
  DirtyGpas_ : List Nat
  Breakpoints_ : List (Nat × Nat)
  Cpu_ : Option Nat
  InstructionLimit_ : Nat
  TraceFile_ : Option Nat
  TraceType_ : TraceType_t
  TestcaseResult_ : TestcaseResult_t
  InitialCr3_ : Nat
  RunStats_ : BochscpuRunStats_t
  Seed_ : Nat
  TestcaseBuffer_ : Option (List Nat)
  TestcaseBufferSize_ : Nat

/-- The state of a newly constructed backend, from the in-class member
initializers (bochscpu_backend.h:91-147): `Cpu_ = nullptr`,
`InstructionLimit_ = 0`, `TraceFile_ = nullptr`,
`TraceType_ = TraceType_t::NoTrace`, `TestcaseResult_ = Ok_t()`,
`InitialCr3_ = 0`, `Seed_ = 0`, `TestcaseBuffer_ = nullptr`,
`TestcaseBufferSize_ = 0`, and default-constructed (empty) containers,
dump parser and run stats.  (The constructor body, not part of the
repository snapshot, wires the engine hook chain and is modelled from the
spec as not touching these members.) -/
def BochscpuBackend_t.init : BochscpuBackend_t where
  snapshot := fun _ => none
  physmemOverlay := fun _ => none
  AggregatedCodeCoverage_ := []
  LastNewCoverage_ := []
  DirtyGpas_ := []
  Breakpoints_ := []
  Cpu_ := none
  InstructionLimit_ := 0
  TraceFile_ := none
  TraceType_ := TraceType_t.NoTrace
  TestcaseResult_ := TestcaseResult_t.Ok
  InitialCr3_ := 0
  RunStats_ := {}
  Seed_ := 0
  TestcaseBuffer_ := none
  TestcaseBufferSize_ := 0

/-- The hash functor of `AggregatedCodeCoverage_`
(bochscpu_backend.h:67): `tsl::robin_set<Gva_t, IdentityGvaHash>`. -/
def BochscpuBackend_t.AggregatedCodeCoverageHash : Gva_t → Nat := IdentityGvaHash

/-- The hash functor of `LastNewCoverage_` (bochscpu_backend.h:73):
`tsl::robin_set<Gva_t>`, using the default `std::hash<Gva_t>`. -/
def BochscpuBackend_t.LastNewCoverageHash : Gva_t → Nat := defaultGvaHash

/-- The hash functor of `DirtyGpas_` (bochscpu_backend.h:79):
`tsl::robin_pg_set<Gpa_t, IdentityGpaHash>`. -/
def BochscpuBackend_t.DirtyGpasHash : Gpa_t → Nat := IdentityGpaHash

/-- The hash functor of `Breakpoints_` (bochscpu_backend.h:85):
`tsl::robin_map<Gva_t, BreakpointHandler_t>`, using the default
`std::hash<Gva_t>`. -/
def BochscpuBackend_t.BreakpointsHash : Gva_t → Nat := defaultGvaHash

/-- Modelled from the spec: `BochscpuBackend_t::DirtyGpa`
(bochscpu_backend.h:214; body not part of the repository snapshot):
"idempotently marks the containing page as dirty,
copy-on-write-allocating a mutable page the first time; no-op if already
dirty.  Returns success/failure (failure only if the page does not exist
in the snapshot)."  The copy-on-write allocation is the spec's two-tier
overlay: the snapshot page contents are copied into the mutable overlay. -/
def BochscpuBackend_t.DirtyGpa (s : BochscpuBackend_t) (gpa : Nat) :
    BochscpuBackend_t × Bool :=
  if Page.Align gpa ∈ s.DirtyGpas_ then (s, true)
  else
    match s.snapshot (Page.Align gpa) with
    | none => (s, false)
    | some content =>
        ({ s with
            physmemOverlay := fun p =>
              if p = Page.Align gpa then some content else s.physmemOverlay p,
            DirtyGpas_ := Page.Align gpa :: s.DirtyGpas_ }, true)

/-- A sequence of `DirtyGpa` calls, keeping only the state (the helper used
to state the idempotence property over N calls). -/
def BochscpuBackend_t.dirtyMany (s : BochscpuBackend_t) (gpas : List Nat) :
    BochscpuBackend_t :=
  gpas.foldl (fun t g => (BochscpuBackend_t.DirtyGpa t g).1) s

/-- Modelled from the spec: `BochscpuBackend_t::PhysTranslate`
(bochscpu_backend.h:219; body not part of the repository snapshot):
"resolves a physical address to its backing bytes — the dirty copy if
present in the Dirty Set, else the shared immutable snapshot page, else
null if the page was never part of the snapshot."  The pointer into the
page is embedded as the byte it points at. -/
def BochscpuBackend_t.PhysTranslate (s : BochscpuBackend_t) (gpa : Nat) :
    Option Nat :=
  match s.physmemOverlay (Page.Align gpa) with
  | some content => some (content (gpa % Page.Size))
  | none =>
      match s.snapshot (Page.Align gpa) with
      | some content => some (content (gpa % Page.Size))
      | none => none

/-- The byte a physical address resolves to in the immutable snapshot alone,
ignoring any dirty copy. -/
def BochscpuBackend_t.snapshotByte (s : BochscpuBackend_t) (gpa : Nat) :
    Option Nat :=
  match s.snapshot (Page.Align gpa) with
  | some content => some (content (gpa % Page.Size))
  | none => none

/-- Modelled from the spec: `BochscpuBackend_t::Restore`
(bochscpu_backend.h:171; body not part of the repository snapshot):
"reverts dirty pages to the snapshot, clears the Dirty Set, reapplies
CpuState, returns to Idle."  In the two-tier model, reverting the dirty
pages drops their overlay copies so reads fall through to the immutable
snapshot again.  The register-file part of CpuState lives behind the
opaque `Cpu_` handle and is outside the embedded state. -/
def BochscpuBackend_t.Restore (s : BochscpuBackend_t) : BochscpuBackend_t :=
  { s with physmemOverlay := fun _ => none, DirtyGpas_ := [] }

/-- Modelled from the spec: the coverage-recording step of
`BochscpuBackend_t::BeforeExecutionHook` (bochscpu_backend.h:239; body not
part of the repository snapshot): "inserts into Last-Run Coverage; if not
already in Aggregated Coverage, also inserts there", where
`LastNewCoverage_` holds the "new code-coverage executed by the latest
testcase" (bochscpu_backend.h:70-73), i.e. the addresses present in
Aggregated Coverage only because of this run. -/
def BochscpuBackend_t.RecordHit (s : BochscpuBackend_t) (gva : Nat) :
    BochscpuBackend_t :=
  if gva ∈ s.AggregatedCodeCoverage_ then s
  else
    { s with
        AggregatedCodeCoverage_ := gva :: s.AggregatedCodeCoverage_,
        LastNewCoverage_ := gva :: s.LastNewCoverage_ }

/-- Modelled from the spec: one run's worth of coverage recording.  `Run`
"resets Last-Run Coverage" at the start, then the before-execution hook
records every executed instruction address in order. -/
def BochscpuBackend_t.runHits (s : BochscpuBackend_t) (hits : List Nat) :
    BochscpuBackend_t :=
  hits.foldl BochscpuBackend_t.RecordHit { s with LastNewCoverage_ := [] }

/-- Modelled from the spec: `BochscpuBackend_t::RevokeLastNewCoverage`
(bochscpu_backend.h:227; body not part of the repository snapshot):
"removes, from Aggregated Coverage, exactly the addresses that were newly
added during the last run (and clears Last-Run Coverage)...  Fails safe:
calling it twice in a row is a no-op the second time"; per the spec's
error taxonomy, revoking with no new coverage "is a no-op, never an
error", so the call always succeeds. -/
def BochscpuBackend_t.RevokeLastNewCoverage (s : BochscpuBackend_t) :
    BochscpuBackend_t × Bool :=
  ({ s with
      AggregatedCodeCoverage_ :=
        s.AggregatedCodeCoverage_.filter (fun g => !decide (g ∈ s.LastNewCoverage_)),
      LastNewCoverage_ := [] }, true)

/-- How the guest, left to itself, would end the run: by crashing (with a
classification reason) or by exiting the target (detected by the
page-table root diverging from the initial one). -/
inductive GuestEnd where
  | CrashEnd : String → GuestEnd
  | ExitEnd : GuestEnd
deriving DecidableEq, Repr

/-- Modelled from the spec: the instruction-granular run loop of
`BochscpuBackend_t::Run` together with the instruction-limit check of
`BochscpuBackend_t::BeforeExecutionHook` (bochscpu_backend.h:168-169 and
239; bodies not part of the repository snapshot).  The guest is abstracted
by the number of instructions it would execute before ending on its own
(`steps`) and how it would end (`ek`).  At every instruction boundary the
before-execution hook compares the instruction counter against the
configured limit and, when the counter has reached the limit, signals
Timeout and requests a stop; otherwise the instruction retires and the
counter advances.  When the guest reaches its own end first, the run is
classified Crash or Ok accordingly. -/
def BochscpuBackend_t.runLoop (limit : Nat) :
    Nat → Nat → GuestEnd → TestcaseResult_t
  | executed, 0, ek =>
      if limit ≤ executed then TestcaseResult_t.Timeout
      else
        match ek with
        | GuestEnd.CrashEnd reason => TestcaseResult_t.Crash reason
        | GuestEnd.ExitEnd => TestcaseResult_t.Ok
  | executed, steps + 1, ek =>
      if limit ≤ executed then TestcaseResult_t.Timeout
      else BochscpuBackend_t.runLoop limit (executed + 1) steps ek

/-- Modelled from the spec: `BochscpuBackend_t::Run`
(bochscpu_backend.h:168-169; body not part of the repository snapshot)
"returns the classified TestcaseResult, or none if the engine could not
start" (e.g. after a prior initialization failure).  `engineStarted`
abstracts whether the emulation engine could be started at all. -/
def BochscpuBackend_t.Run (engineStarted : Bool) (limit steps : Nat)
    (ek : GuestEnd) : Option TestcaseResult_t :=
  if engineStarted then some (BochscpuBackend_t.runLoop limit 0 steps ek)
  else none

/-- `BochscpuBackend_t::SetLimit` (bochscpu_backend.h:175; body not part of
the repository snapshot).  Modelled from the spec: "sets the instruction
budget for subsequent runs". -/
def BochscpuBackend_t.SetLimit (s : BochscpuBackend_t)
    (InstructionLimit : Nat) : BochscpuBackend_t :=
  { s with InstructionLimit_ := InstructionLimit }

/-!
Theorems.
-/

/-- Claim C1 counterexample: `BochscpuRunStats_t::Reset` does not set all
four counters to zero.  On the concrete stats record (1, 2, 3, 4), the
unique-coverage and dirtied-page counters survive the reset. -/
theorem C1_counterexample :
    ¬ ((BochscpuRunStats_t.Reset ⟨1, 2, 3, 4⟩).NumberInstructionsExecuted = 0
        ∧ (BochscpuRunStats_t.Reset ⟨1, 2, 3, 4⟩).NumberMemoryAccesses = 0
        ∧ (BochscpuRunStats_t.Reset ⟨1, 2, 3, 4⟩).AggregatedCodeCoverage = 0
        ∧ (BochscpuRunStats_t.Reset ⟨1, 2, 3, 4⟩).DirtyGpas = 0) := by
  decide

/-- Claim C1 (amended): resetting the run stats sets the two per-run
counters — instructions executed and memory accesses — back to zero and
leaves the unique-coverage and dirtied-page counters unchanged. -/
theorem C1_reset_zeroes_per_run_counters (s : BochscpuRunStats_t) :
    BochscpuRunStats_t.Reset s =
      { s with NumberInstructionsExecuted := 0, NumberMemoryAccesses := 0 } :=
  rfl

/-- Claim C9: for every starting stats value, `BochscpuRunStats_t::Reset`
sets `NumberInstructionsExecuted` and `NumberMemoryAccesses` to zero and
leaves `AggregatedCodeCoverage` and `DirtyGpas` unchanged. -/
theorem C9_reset_frame (s : BochscpuRunStats_t) :
    (BochscpuRunStats_t.Reset s).NumberInstructionsExecuted = 0
    ∧ (BochscpuRunStats_t.Reset s).NumberMemoryAccesses = 0
    ∧ (BochscpuRunStats_t.Reset s).AggregatedCodeCoverage
        = s.AggregatedCodeCoverage
    ∧ (BochscpuRunStats_t.Reset s).DirtyGpas = s.DirtyGpas :=
  ⟨rfl, rfl, rfl, rfl⟩

/-- Claim C3: the hash used by each of the backend's lookup tables —
aggregated coverage, last-run coverage, dirty-page set and breakpoint
table — is the identity on the raw 64-bit value of the key. -/
theorem C3_lookup_table_hashes_are_identity (p : Gpa_t) (v : Gva_t) :
    BochscpuBackend_t.AggregatedCodeCoverageHash v = v.U64
    ∧ BochscpuBackend_t.LastNewCoverageHash v = v.U64
    ∧ BochscpuBackend_t.DirtyGpasHash p = p.U64
    ∧ BochscpuBackend_t.BreakpointsHash v = v.U64 :=
  ⟨rfl, rfl, rfl, rfl⟩

/-- Claim C8: `Print` computes the dirty-memory byte count as
`DirtyGpas * Page::Size` but the printed "MB" count as
`DirtyGpas / Page::Size` — an integer division of the page count by 4096
rather than of the byte count by 2 ^ 20 — so for every stats value with
0 < DirtyGpas < 4096 the printed MB figure is 0 while the byte figure is
nonzero. -/
theorem C8_print_dirty_mb_from_page_count (s : BochscpuRunStats_t)
    (h0 : 0 < s.DirtyGpas) (h1 : s.DirtyGpas < 4096) :
    s.DirtyMemoryBytes = s.DirtyGpas * Page.Size
    ∧ s.DirtyMemoryMb = s.DirtyGpas / Page.Size
    ∧ s.DirtyMemoryMb = 0
    ∧ s.DirtyMemoryBytes ≠ 0 := by
  have hbytes : s.DirtyGpas * 4096 < 2 ^ 64 := by
    have h2 : s.DirtyGpas * 4096 < 4096 * 4096 := by omega
    exact lt_of_lt_of_le h2 (by norm_num)
  refine ⟨?_, rfl, ?_, ?_⟩
  · show s.DirtyGpas * Page.Size % 2 ^ 64 = s.DirtyGpas * Page.Size
    exact Nat.mod_eq_of_lt hbytes
  · exact Nat.div_eq_of_lt h1
  · show s.DirtyGpas * 4096 % 2 ^ 64 ≠ 0
    rw [Nat.mod_eq_of_lt hbytes]
    omega

/-- Claim C8 witness: the stats record with 5 dirtied pages. -/
theorem C8_witness :
    0 < (⟨0, 0, 0, 5⟩ : BochscpuRunStats_t).DirtyGpas
    ∧ (⟨0, 0, 0, 5⟩ : BochscpuRunStats_t).DirtyGpas < 4096
    ∧ ((⟨0, 0, 0, 5⟩ : BochscpuRunStats_t).DirtyMemoryBytes
          = (⟨0, 0, 0, 5⟩ : BochscpuRunStats_t).DirtyGpas * Page.Size
        ∧ (⟨0, 0, 0, 5⟩ : BochscpuRunStats_t).DirtyMemoryMb
          = (⟨0, 0, 0, 5⟩ : BochscpuRunStats_t).DirtyGpas / Page.Size
        ∧ (⟨0, 0, 0, 5⟩ : BochscpuRunStats_t).DirtyMemoryMb = 0
        ∧ (⟨0, 0, 0, 5⟩ : BochscpuRunStats_t).DirtyMemoryBytes ≠ 0) :=
  ⟨by decide, by decide,
    C8_print_dirty_mb_from_page_count ⟨0, 0, 0, 5⟩ (by decide) (by decide)⟩

/-- Claim C10: a newly constructed backend starts with TestcaseResult Ok,
instruction limit 0, trace type NoTrace, no trace file, a null CPU handle,
an initial CR3 of 0, and no stored testcase buffer (null pointer, size 0). -/
theorem C10_fresh_backend_initial_state :
    BochscpuBackend_t.init.TestcaseResult_ = TestcaseResult_t.Ok
    ∧ BochscpuBackend_t.init.InstructionLimit_ = 0
    ∧ BochscpuBackend_t.init.TraceType_ = TraceType_t.NoTrace
    ∧ BochscpuBackend_t.init.TraceFile_ = none
    ∧ BochscpuBackend_t.init.Cpu_ = none
    ∧ BochscpuBackend_t.init.InitialCr3_ = 0
    ∧ BochscpuBackend_t.init.TestcaseBuffer_ = none
    ∧ BochscpuBackend_t.init.TestcaseBufferSize_ = 0 :=
  ⟨rfl, rfl, rfl, rfl, rfl, rfl, rfl, rfl⟩

/-- The run loop times out exactly when the configured limit fits within
the instructions already retired plus those the guest would still run. -/
lemma runLoop_timeout_iff (limit : Nat) (ek : GuestEnd) (steps : Nat) :
    ∀ executed, (BochscpuBackend_t.runLoop limit executed steps ek
      = TestcaseResult_t.Timeout ↔ limit ≤ executed + steps) := by
  induction steps with
  | zero =>
      intro executed
      by_cases h : limit ≤ executed
      · simp [BochscpuBackend_t.runLoop, h]
      · cases ek <;> simp [BochscpuBackend_t.runLoop, h]
  | succ n ih =>
      intro executed
      by_cases h : limit ≤ executed
      · simp [BochscpuBackend_t.runLoop, h]
        omega
      · have hstep : BochscpuBackend_t.runLoop limit executed (n + 1) ek
            = BochscpuBackend_t.runLoop limit (executed + 1) n ek := by
          simp [BochscpuBackend_t.runLoop, h]
        rw [hstep, ih (executed + 1)]
        omega

/-- Claim C2: with a configured instruction limit L, `Run` classifies the
result as Timeout exactly when the guest would execute at least L
instructions before crashing or exiting on its own; with L = 0 the run
times out immediately, whatever the guest would have done. -/
theorem C2_timeout_iff_limit_reached (L steps : Nat) (ek : GuestEnd) :
    (BochscpuBackend_t.Run true L steps ek = some TestcaseResult_t.Timeout
      ↔ L ≤ steps)
    ∧ BochscpuBackend_t.Run true 0 steps ek = some TestcaseResult_t.Timeout := by
  constructor
  · show some (BochscpuBackend_t.runLoop L 0 steps ek)
        = some TestcaseResult_t.Timeout ↔ L ≤ steps
    rw [Option.some_inj]
    simpa using runLoop_timeout_iff L ek steps 0
  · show some (BochscpuBackend_t.runLoop 0 0 steps ek)
        = some TestcaseResult_t.Timeout
    exact congrArg some ((runLoop_timeout_iff 0 ek steps 0).mpr (Nat.zero_le _))

/-- Claim C7: when the engine starts, `Run` always hands the caller a
definite TestcaseResult — Ok, Crash or Timeout; it returns the empty
optional exactly when the emulation engine could not be started at all. -/
theorem C7_run_definite_result (L steps : Nat) (ek : GuestEnd) :
    (∃ r, BochscpuBackend_t.Run true L steps ek = some r
        ∧ (r = TestcaseResult_t.Ok
            ∨ (∃ reason, r = TestcaseResult_t.Crash reason)
            ∨ r = TestcaseResult_t.Timeout))
    ∧ BochscpuBackend_t.Run false L steps ek = none := by
  refine ⟨⟨BochscpuBackend_t.runLoop L 0 steps ek, rfl, ?_⟩, rfl⟩
  cases h : BochscpuBackend_t.runLoop L 0 steps ek with
  | Ok => exact Or.inl rfl
  | Crash reason => exact Or.inr (Or.inl ⟨reason, rfl⟩)
  | Timeout => exact Or.inr (Or.inr rfl)

/-- Claim C4: after `Restore`, the dirty set is empty and every page that
was dirtied during the prior run reads back byte-for-byte identical to its
original snapshot content. -/
theorem C4_restore_clears_dirty_and_reverts (s : BochscpuBackend_t) (p : Nat)
    (_hp : p ∈ s.DirtyGpas_) :
    (BochscpuBackend_t.Restore s).DirtyGpas_ = []
    ∧ ∀ off, off < Page.Size →
        BochscpuBackend_t.PhysTranslate (BochscpuBackend_t.Restore s) (p + off)
          = BochscpuBackend_t.snapshotByte s (p + off) :=
  ⟨rfl, fun _ _ => rfl⟩

/-- A backend whose snapshot holds a single page at physical address 0,
filled with the byte 7 (used to instantiate hypotheses on concrete input). -/
def exampleBackend : BochscpuBackend_t :=
  { BochscpuBackend_t.init with
      snapshot := fun p => if p = 0 then some (fun _ => 7) else none,
      DirtyGpas_ := [0] }

/-- Claim C4 witness: restoring the single-page backend whose only page is
dirty. -/
theorem C4_witness :
    0 ∈ exampleBackend.DirtyGpas_
    ∧ ((BochscpuBackend_t.Restore exampleBackend).DirtyGpas_ = []
        ∧ ∀ off, off < Page.Size →
            BochscpuBackend_t.PhysTranslate
                (BochscpuBackend_t.Restore exampleBackend) (0 + off)
              = BochscpuBackend_t.snapshotByte exampleBackend (0 + off)) :=
  ⟨by decide, C4_restore_clears_dirty_and_reverts exampleBackend 0 (by decide)⟩

/-- `DirtyGpa` on an already-dirty page is a successful no-op. -/
lemma dirtyGpa_of_mem (t : BochscpuBackend_t) (g : Nat)
    (h : Page.Align g ∈ t.DirtyGpas_) :
    BochscpuBackend_t.DirtyGpa t g = (t, true) := by
  simp [BochscpuBackend_t.DirtyGpa, h]

/-- Unfolding lemma: a sequence of `DirtyGpa` calls, first call peeled. -/
lemma dirtyMany_cons (t : BochscpuBackend_t) (g : Nat) (gs : List Nat) :
    BochscpuBackend_t.dirtyMany t (g :: gs)
      = BochscpuBackend_t.dirtyMany (BochscpuBackend_t.DirtyGpa t g).1 gs :=
  rfl

/-- Once the page is dirty, any further sequence of `DirtyGpa` calls inside
that page leaves the state untouched. -/
lemma dirtyMany_of_mem (P : Nat) (gs : List Nat) :
    ∀ t : BochscpuBackend_t, (∀ g ∈ gs, Page.Align g = P) →
      P ∈ t.DirtyGpas_ → BochscpuBackend_t.dirtyMany t gs = t := by
  induction gs with
  | nil => intro t _ _; rfl
  | cons g rest ih =>
      intro t hgs hP
      have hg : Page.Align g = P := hgs g (List.mem_cons_self g rest)
      have hnoop : BochscpuBackend_t.DirtyGpa t g = (t, true) :=
        dirtyGpa_of_mem t g (hg ▸ hP)
      rw [dirtyMany_cons, hnoop]
      exact ih t (fun x hx => hgs x (List.mem_cons_of_mem g hx)) hP

/-- A failing `DirtyGpa` call means the page is absent from the snapshot,
and it leaves the state unchanged. -/
lemma dirtyGpa_failure (t : BochscpuBackend_t) (g : Nat)
    (hfalse : (BochscpuBackend_t.DirtyGpa t g).2 = false) :
    t.snapshot (Page.Align g) = none
    ∧ (BochscpuBackend_t.DirtyGpa t g).1 = t := by
  by_cases hm : Page.Align g ∈ t.DirtyGpas_
  · simp [BochscpuBackend_t.DirtyGpa, hm] at hfalse
  · cases hs : t.snapshot (Page.Align g) with
    | none => exact ⟨rfl, by simp [BochscpuBackend_t.DirtyGpa, hm, hs]⟩
    | some c => simp [BochscpuBackend_t.DirtyGpa, hm, hs] at hfalse

/-- Claim C5: `DirtyGpa` is idempotent.  Starting from a state whose dirty
set mentions the page at most once (the set invariant) and whose snapshot
contains the page, any nonempty sequence of calls on addresses inside that
page leaves exactly one dirty-set entry for the page; any further call for
the page is a successful no-op; and a call fails only when the page does
not exist in the snapshot (leaving the state unchanged). -/
theorem C5_dirtyGpa_idempotent (s : BochscpuBackend_t) (P : Nat)
    (gs : List Nat)
    (hgs : ∀ g ∈ gs, Page.Align g = P)
    (hne : gs ≠ [])
    (hsnap : (s.snapshot P).isSome = true)
    (hcount : s.DirtyGpas_.count P ≤ 1) :
    (BochscpuBackend_t.dirtyMany s gs).DirtyGpas_.count P = 1
    ∧ (∀ g, Page.Align g = P →
        BochscpuBackend_t.DirtyGpa (BochscpuBackend_t.dirtyMany s gs) g
          = (BochscpuBackend_t.dirtyMany s gs, true))
    ∧ (∀ (t : BochscpuBackend_t) (g : Nat),
        (BochscpuBackend_t.DirtyGpa t g).2 = false →
          t.snapshot (Page.Align g) = none
          ∧ (BochscpuBackend_t.DirtyGpa t g).1 = t) := by
  obtain ⟨g0, rest, rfl⟩ : ∃ g0 rest, gs = g0 :: rest := by
    cases gs with
    | nil => exact absurd rfl hne
    | cons a l => exact ⟨a, l, rfl⟩
  have hg0 : Page.Align g0 = P := hgs g0 (List.mem_cons_self g0 rest)
  have hrest : ∀ g ∈ rest, Page.Align g = P :=
    fun x hx => hgs x (List.mem_cons_of_mem g0 hx)
  have key : P ∈ (BochscpuBackend_t.DirtyGpa s g0).1.DirtyGpas_
      ∧ (BochscpuBackend_t.DirtyGpa s g0).1.DirtyGpas_.count P = 1 := by
    by_cases hm : P ∈ s.DirtyGpas_
    · have hnoop : BochscpuBackend_t.DirtyGpa s g0 = (s, true) :=
        dirtyGpa_of_mem s g0 (hg0 ▸ hm)
      rw [hnoop]
      exact ⟨hm, Nat.le_antisymm hcount (List.count_pos_iff.mpr hm)⟩
    · obtain ⟨c, hc⟩ := Option.isSome_iff_exists.mp hsnap
      have hstep : BochscpuBackend_t.DirtyGpa s g0
          = ({ s with
                physmemOverlay := fun p =>
                  if p = Page.Align g0 then some c else s.physmemOverlay p,
                DirtyGpas_ := Page.Align g0 :: s.DirtyGpas_ }, true) := by
        rw [BochscpuBackend_t.DirtyGpa, if_neg (hg0 ▸ hm), hg0, hc]
      rw [hstep]
      refine ⟨?_, ?_⟩
      · show P ∈ Page.Align g0 :: s.DirtyGpas_
        rw [hg0]
        exact List.mem_cons_self P s.DirtyGpas_
      · show (Page.Align g0 :: s.DirtyGpas_).count P = 1
        rw [hg0, List.count_cons_self, List.count_eq_zero_of_not_mem hm]
  have hfold : BochscpuBackend_t.dirtyMany s (g0 :: rest)
      = (BochscpuBackend_t.DirtyGpa s g0).1 := by
    rw [dirtyMany_cons]
    exact dirtyMany_of_mem P rest (BochscpuBackend_t.DirtyGpa s g0).1 hrest key.1
  refine ⟨?_, ?_, dirtyGpa_failure⟩
  · rw [hfold]
    exact key.2
  · intro g hgP
    rw [hfold]
    exact dirtyGpa_of_mem (BochscpuBackend_t.DirtyGpa s g0).1 g (hgP ▸ key.1)

/-- Recording hits never changes the aggregated-coverage entries that
survive filtering out the current last-new set: every address the fold
adds to the aggregated set is also added to the last-new set, and
addresses already aggregated are never added to the last-new set. -/
lemma recordHit_filter_inv (hits : List Nat) :
    ∀ t : BochscpuBackend_t,
      (hits.foldl BochscpuBackend_t.RecordHit t).AggregatedCodeCoverage_.filter
          (fun g => !decide
            (g ∈ (hits.foldl BochscpuBackend_t.RecordHit t).LastNewCoverage_))
        = t.AggregatedCodeCoverage_.filter
            (fun g => !decide (g ∈ t.LastNewCoverage_)) := by
  induction hits with
  | nil => intro t; rfl
  | cons h rest ih =>
      intro t
      rw [List.foldl_cons, ih (BochscpuBackend_t.RecordHit t h)]
      by_cases hm : h ∈ t.AggregatedCodeCoverage_
      · rw [BochscpuBackend_t.RecordHit, if_pos hm]
      · rw [BochscpuBackend_t.RecordHit, if_neg hm]
        show (h :: t.AggregatedCodeCoverage_).filter
            (fun g => !decide (g ∈ h :: t.LastNewCoverage_))
          = t.AggregatedCodeCoverage_.filter
              (fun g => !decide (g ∈ t.LastNewCoverage_))
        rw [List.filter_cons_of_neg (by simp)]
        refine List.filter_congr ?_
        intro g hg
        have hne : ¬(g = h) := fun e => hm (e ▸ hg)
        simp [List.mem_cons, hne]

/-- Revoking when the last-new set is already empty changes nothing. -/
lemma revoke_noop_of_empty (t : BochscpuBackend_t)
    (h : t.LastNewCoverage_ = []) :
    (BochscpuBackend_t.RevokeLastNewCoverage t).1 = t := by
  have hfilter : t.AggregatedCodeCoverage_.filter
      (fun g => !decide (g ∈ t.LastNewCoverage_)) = t.AggregatedCodeCoverage_ := by
    rw [h]
    simp
  show ({ t with
      AggregatedCodeCoverage_ :=
        t.AggregatedCodeCoverage_.filter
          (fun g => !decide (g ∈ t.LastNewCoverage_)),
      LastNewCoverage_ := [] } : BochscpuBackend_t) = t
  rw [hfilter, ← h]

/-- Claim C6: revoking after a run removes from aggregated coverage exactly
the addresses newly added by that run — the aggregated set returns to its
pre-run contents — and clears last-run coverage; a second consecutive call
is a no-op, and the call always succeeds (never an error). -/
theorem C6_revoke_exact_and_idempotent (s : BochscpuBackend_t)
    (hits : List Nat) :
    (BochscpuBackend_t.RevokeLastNewCoverage
        (BochscpuBackend_t.runHits s hits)).1.AggregatedCodeCoverage_
      = s.AggregatedCodeCoverage_
    ∧ (BochscpuBackend_t.RevokeLastNewCoverage
        (BochscpuBackend_t.runHits s hits)).1.LastNewCoverage_ = []
    ∧ (BochscpuBackend_t.RevokeLastNewCoverage
        (BochscpuBackend_t.RevokeLastNewCoverage
          (BochscpuBackend_t.runHits s hits)).1).1
      = (BochscpuBackend_t.RevokeLastNewCoverage
          (BochscpuBackend_t.runHits s hits)).1
    ∧ (∀ t : BochscpuBackend_t,
        (BochscpuBackend_t.RevokeLastNewCoverage t).2 = true) := by
  refine ⟨?_, rfl, revoke_noop_of_empty _ rfl, fun t => rfl⟩
  show (hits.foldl BochscpuBackend_t.RecordHit
        { s with LastNewCoverage_ := [] }).AggregatedCodeCoverage_.filter
      (fun g => !decide
        (g ∈ (hits.foldl BochscpuBackend_t.RecordHit
          { s with LastNewCoverage_ := [] }).LastNewCoverage_))
    = s.AggregatedCodeCoverage_
  rw [recordHit_filter_inv hits { s with LastNewCoverage_ := [] }]
  simp

/-- Claim C5 witness: two calls inside page 0 of the single-page backend. -/
theorem C5_witness :
    (∀ g ∈ [0, 5], Page.Align g = 0)
    ∧ ([0, 5] : List Nat) ≠ []
    ∧ (exampleBackend.snapshot 0).isSome = true
    ∧ exampleBackend.DirtyGpas_.count 0 ≤ 1
    ∧ ((BochscpuBackend_t.dirtyMany exampleBackend [0, 5]).DirtyGpas_.count 0 = 1
        ∧ (∀ g, Page.Align g = 0 →
            BochscpuBackend_t.DirtyGpa
                (BochscpuBackend_t.dirtyMany exampleBackend [0, 5]) g
              = (BochscpuBackend_t.dirtyMany exampleBackend [0, 5], true))
        ∧ (∀ (t : BochscpuBackend_t) (g : Nat),
            (BochscpuBackend_t.DirtyGpa t g).2 = false →
              t.snapshot (Page.Align g) = none
              ∧ (BochscpuBackend_t.DirtyGpa t g).1 = t)) :=
  ⟨by decide, by decide, rfl, by decide,
    C5_dirtyGpa_idempotent exampleBackend 0 [0, 5] (by decide) (by decide) rfl
      (by decide)⟩
